import Mathlib

/-!
Shallow embedding of the `fakerserver` HTTP service
(`src/http_server/fake_data.py` and `src/http_server/api_handler.py`).

The `Faker` third-party library is external to the repository; its methods are
modelled as an oracle structure with one field per method the source calls.
Each method is a function of its call index (successive calls may return
different values) returning `Except Exc Value`, since a call may either
return a value or raise an exception.  Python exception classes that the
handler's `except` clauses distinguish are modelled by the `Exc` inductive.
-/

namespace FakerServer

/-- Exception model distinguishing what `APIRequestHandler.handle_generate`
distinguishes: `ValueError` is caught by its own `except ValueError` clause,
everything else falls to the generic `except Exception` clause.  `IndexError`
(which `data[0]` would raise on an empty list) is kept as its own constructor
so that the unreachable out-of-bounds branch can be named precisely. -/
inductive Exc where
  | valueError (msg : String)
  | indexError (msg : String)
  | otherError (msg : String)

/-- JSON-like values: the payloads produced by the generators and the JSON
bodies assembled by the handler (`json.dumps`-serializable data). -/
inductive Value where
  | bool (b : Bool)
  | int (n : Int)
  | str (s : String)
  | list (xs : List Value)
  | record (fields : List (String × Value))

/-- A zero-argument producer (`faker` method or composite generator),
modelled as a function of its call index. -/
abbrev Producer := Nat → Except Exc Value

/-- Oracle model of the `Faker` instance `self.fake`: one field per method
referenced by `fake_data.py`.  `date_time`, `date_of_birth` and `uuid4` are
modelled as returning the string the source converts them to (`isoformat()`
resp. `str()`); `random_int` takes its `min`/`max` arguments. -/
structure Faker where
  name : Producer
  first_name : Producer
  last_name : Producer
  email : Producer
  phone_number : Producer
  ssn : Producer
  user_name : Producer
  password : Producer
  address : Producer
  street_address : Producer
  city : Producer
  state : Producer
  zipcode : Producer
  country : Producer
  latitude : Producer
  longitude : Producer
  company : Producer
  job : Producer
  company_email : Producer
  url : Producer
  domain_name : Producer
  ipv4 : Producer
  ipv6 : Producer
  mac_address : Producer
  user_agent : Producer
  text : Producer
  sentence : Producer
  paragraph : Producer
  word : Producer
  date : Producer
  time : Producer
  date_time : Nat → Except Exc String
  year : Producer
  random_int : Int → Int → Nat → Except Exc Int
  random_digit : Producer
  credit_card_number : Producer
  credit_card_provider : Producer
  credit_card_expire : Producer
  currency_code : Producer
  currency_name : Producer
  file_name : Producer
  file_extension : Producer
  mime_type : Producer
  color_name : Producer
  hex_color : Producer
  rgb_color : Producer
  uuid4 : Nat → Except Exc String
  date_of_birth : Nat → Except Exc String

/-- A `Faker` instance all of whose methods succeed on every call (the normal
operating assumption: the external library raises no exception). -/
structure Faker.Total (fake : Faker) : Prop where
  name : ∀ i, ∃ v, fake.name i = Except.ok v
  first_name : ∀ i, ∃ v, fake.first_name i = Except.ok v
  last_name : ∀ i, ∃ v, fake.last_name i = Except.ok v
  email : ∀ i, ∃ v, fake.email i = Except.ok v
  phone_number : ∀ i, ∃ v, fake.phone_number i = Except.ok v
  ssn : ∀ i, ∃ v, fake.ssn i = Except.ok v
  user_name : ∀ i, ∃ v, fake.user_name i = Except.ok v
  password : ∀ i, ∃ v, fake.password i = Except.ok v
  address : ∀ i, ∃ v, fake.address i = Except.ok v
  street_address : ∀ i, ∃ v, fake.street_address i = Except.ok v
  city : ∀ i, ∃ v, fake.city i = Except.ok v
  state : ∀ i, ∃ v, fake.state i = Except.ok v
  zipcode : ∀ i, ∃ v, fake.zipcode i = Except.ok v
  country : ∀ i, ∃ v, fake.country i = Except.ok v
  latitude : ∀ i, ∃ v, fake.latitude i = Except.ok v
  longitude : ∀ i, ∃ v, fake.longitude i = Except.ok v
  company : ∀ i, ∃ v, fake.company i = Except.ok v
  job : ∀ i, ∃ v, fake.job i = Except.ok v
  company_email : ∀ i, ∃ v, fake.company_email i = Except.ok v
  url : ∀ i, ∃ v, fake.url i = Except.ok v
  domain_name : ∀ i, ∃ v, fake.domain_name i = Except.ok v
  ipv4 : ∀ i, ∃ v, fake.ipv4 i = Except.ok v
  ipv6 : ∀ i, ∃ v, fake.ipv6 i = Except.ok v
  mac_address : ∀ i, ∃ v, fake.mac_address i = Except.ok v
  user_agent : ∀ i, ∃ v, fake.user_agent i = Except.ok v
  text : ∀ i, ∃ v, fake.text i = Except.ok v
  sentence : ∀ i, ∃ v, fake.sentence i = Except.ok v
  paragraph : ∀ i, ∃ v, fake.paragraph i = Except.ok v
  word : ∀ i, ∃ v, fake.word i = Except.ok v
  date : ∀ i, ∃ v, fake.date i = Except.ok v
  time : ∀ i, ∃ v, fake.time i = Except.ok v
  date_time : ∀ i, ∃ s, fake.date_time i = Except.ok s
  year : ∀ i, ∃ v, fake.year i = Except.ok v
  random_int : ∀ lo hi i, ∃ n, fake.random_int lo hi i = Except.ok n
  random_digit : ∀ i, ∃ v, fake.random_digit i = Except.ok v
  credit_card_number : ∀ i, ∃ v, fake.credit_card_number i = Except.ok v
  credit_card_provider : ∀ i, ∃ v, fake.credit_card_provider i = Except.ok v
  credit_card_expire : ∀ i, ∃ v, fake.credit_card_expire i = Except.ok v
  currency_code : ∀ i, ∃ v, fake.currency_code i = Except.ok v
  currency_name : ∀ i, ∃ v, fake.currency_name i = Except.ok v
  file_name : ∀ i, ∃ v, fake.file_name i = Except.ok v
  file_extension : ∀ i, ∃ v, fake.file_extension i = Except.ok v
  mime_type : ∀ i, ∃ v, fake.mime_type i = Except.ok v
  color_name : ∀ i, ∃ v, fake.color_name i = Except.ok v
  hex_color : ∀ i, ∃ v, fake.hex_color i = Except.ok v
  rgb_color : ∀ i, ∃ v, fake.rgb_color i = Except.ok v
  uuid4 : ∀ i, ∃ s, fake.uuid4 i = Except.ok s
  date_of_birth : ∀ i, ∃ s, fake.date_of_birth i = Except.ok s

/-- Embedding of the list comprehension `[generator() for _ in range(count)]`:
call the producer `k` times starting at call index `i`, collecting results in
call order; the first exception aborts the whole comprehension. -/
def Producer.callTimes (p : Producer) : Nat → Nat → Except Exc (List Value)
  | _, 0 => Except.ok []
  | i, k + 1 =>
    match p i with
    | Except.error e => Except.error e
    | Except.ok v =>
      match Producer.callTimes p (i + 1) k with
      | Except.error e => Except.error e
      | Except.ok vs => Except.ok (v :: vs)

theorem Producer.callTimes_length (p : Producer) :
    ∀ (k i : Nat) (ds : List Value), p.callTimes i k = Except.ok ds → ds.length = k := by
  intro k
  induction k with
  | zero =>
    intro i ds h
    cases h
    rfl
  | succ n ih =>
    intro i ds h
    unfold Producer.callTimes at h
    cases hp : p i with
    | error e => rw [hp] at h; exact Except.noConfusion h
    | ok v =>
      rw [hp] at h
      cases hrec : p.callTimes (i + 1) n with
      | error e => rw [hrec] at h; exact Except.noConfusion h
      | ok vs =>
        rw [hrec] at h
        cases h
        simp [ih (i + 1) vs hrec]

theorem Producer.callTimes_get (p : Producer) :
    ∀ (k i : Nat) (ds : List Value), p.callTimes i k = Except.ok ds →
      ∀ (j : Nat) (hj : j < ds.length), p (i + j) = Except.ok (ds.get ⟨j, hj⟩) := by
  intro k
  induction k with
  | zero =>
    intro i ds h j hj
    cases h
    exact absurd hj (by simp)
  | succ n ih =>
    intro i ds h j hj
    unfold Producer.callTimes at h
    cases hp : p i with
    | error e => rw [hp] at h; exact Except.noConfusion h
    | ok v =>
      rw [hp] at h
      cases hrec : p.callTimes (i + 1) n with
      | error e => rw [hrec] at h; exact Except.noConfusion h
      | ok vs =>
        rw [hrec] at h
        cases h
        cases j with
        | zero => simpa using hp
        | succ j' =>
          have hj' : j' < vs.length := by simpa using Nat.lt_of_succ_lt_succ hj
          have heq : i + (j' + 1) = (i + 1) + j' := by omega
          rw [heq]
          simpa using ih (i + 1) vs hrec j' hj'

theorem Producer.callTimes_ok_of_total (p : Producer) (h : ∀ i, ∃ v, p i = Except.ok v) :
    ∀ (k i : Nat), ∃ ds, p.callTimes i k = Except.ok ds := by
  intro k
  induction k with
  | zero => intro i; exact ⟨[], rfl⟩
  | succ n ih =>
    intro i
    obtain ⟨v, hv⟩ := h i
    obtain ⟨vs, hvs⟩ := ih (i + 1)
    exact ⟨v :: vs, by unfold Producer.callTimes; rw [hv, hvs]⟩

theorem Producer.callTimes_mem (p : Producer) :
    ∀ (k i : Nat) (ds : List Value), p.callTimes i k = Except.ok ds →
      ∀ v ∈ ds, ∃ j, p j = Except.ok v := by
  intro k
  induction k with
  | zero =>
    intro i ds h v hv
    cases h
    exact absurd hv (by simp)
  | succ n ih =>
    intro i ds h v hv
    unfold Producer.callTimes at h
    cases hp : p i with
    | error e => rw [hp] at h; exact Except.noConfusion h
    | ok w =>
      rw [hp] at h
      cases hrec : p.callTimes (i + 1) n with
      | error e => rw [hrec] at h; exact Except.noConfusion h
      | ok vs =>
        rw [hrec] at h
        cases h
        rcases List.mem_cons.mp hv with rfl | hv'
        · exact ⟨i, hp⟩
        · exact ih (i + 1) vs hrec v hv'

/-- `FakeDataGenerator.__init__` stores `self.fake = Faker(locale)`; the
`Faker` constructor itself is external, so the structure just holds the
resulting oracle. -/
structure FakeDataGenerator where
  fake : Faker

/-- `FakeDataGenerator.generate_profile`: assembles the composite profile
record, evaluating the nine dict values in source order; an exception in any
sub-call propagates. -/
def FakeDataGenerator.generate_profile (g : FakeDataGenerator) (i : Nat) : Except Exc Value := do
  let username ← g.fake.user_name i
  let name ← g.fake.name i
  let email ← g.fake.email i
  let phone ← g.fake.phone_number i
  let address ← g.fake.address i
  let job ← g.fake.job i
  let company ← g.fake.company i
  let birthdate ← g.fake.date_of_birth i
  let website ← g.fake.url i
  pure (Value.record [("username", username), ("name", name), ("email", email),
    ("phone", phone), ("address", address), ("job", job), ("company", company),
    ("birthdate", Value.str birthdate), ("website", website)])

/-- `FakeDataGenerator.generate_user`: assembles the composite user record in
source order; `id` comes from `self.fake.random_int(min=1, max=100000)`. -/
def FakeDataGenerator.generate_user (g : FakeDataGenerator) (i : Nat) : Except Exc Value := do
  let id ← g.fake.random_int 1 100000 i
  let username ← g.fake.user_name i
  let email ← g.fake.email i
  let name ← g.fake.name i
  let created_at ← g.fake.date_time i
  pure (Value.record [("id", Value.int id), ("username", username),
    ("email", email), ("name", name), ("created_at", Value.str created_at)])

/-- The `generator_map` dict literal built inside `FakeDataGenerator.generate`,
in source order.  Entries that the source wraps in a `lambda` only to forward
the call (`date`, `time`) are the method itself; `datetime`, `random_int` and
`uuid4` apply the source's result conversion. -/
def FakeDataGenerator.generator_map (g : FakeDataGenerator) : List (String × Producer) :=
  [("name", g.fake.name),
   ("first_name", g.fake.first_name),
   ("last_name", g.fake.last_name),
   ("email", g.fake.email),
   ("phone", g.fake.phone_number),
   ("ssn", g.fake.ssn),
   ("username", g.fake.user_name),
   ("password", g.fake.password),
   ("address", g.fake.address),
   ("street_address", g.fake.street_address),
   ("city", g.fake.city),
   ("state", g.fake.state),
   ("zipcode", g.fake.zipcode),
   ("country", g.fake.country),
   ("latitude", g.fake.latitude),
   ("longitude", g.fake.longitude),
   ("company", g.fake.company),
   ("job", g.fake.job),
   ("company_email", g.fake.company_email),
   ("url", g.fake.url),
   ("domain_name", g.fake.domain_name),
   ("ipv4", g.fake.ipv4),
   ("ipv6", g.fake.ipv6),
   ("mac_address", g.fake.mac_address),
   ("user_agent", g.fake.user_agent),
   ("text", g.fake.text),
   ("sentence", g.fake.sentence),
   ("paragraph", g.fake.paragraph),
   ("word", g.fake.word),
   ("date", g.fake.date),
   ("time", g.fake.time),
   ("datetime", fun i => (g.fake.date_time i).map Value.str),
   ("year", g.fake.year),
   ("random_int", fun i => (g.fake.random_int 0 1000 i).map Value.int),
   ("random_digit", g.fake.random_digit),
   ("credit_card_number", g.fake.credit_card_number),
   ("credit_card_provider", g.fake.credit_card_provider),
   ("credit_card_expire", g.fake.credit_card_expire),
   ("currency_code", g.fake.currency_code),
   ("currency_name", g.fake.currency_name),
   ("file_name", g.fake.file_name),
   ("file_extension", g.fake.file_extension),
   ("mime_type", g.fake.mime_type),
   ("color_name", g.fake.color_name),
   ("hex_color", g.fake.hex_color),
   ("rgb_color", g.fake.rgb_color),
   ("uuid4", fun i => (g.fake.uuid4 i).map Value.str),
   ("profile", g.generate_profile),
   ("user", g.generate_user)]

/-- `FakeDataGenerator.generate`: look the type up in `generator_map`
(`dict.get`, `None` — i.e. lookup failure — raises
`ValueError(f"Unknown data type: {data_type}")`), then run the producer
`count` times, collecting results in call order. -/
def FakeDataGenerator.generate (g : FakeDataGenerator) (data_type : String) (count : Nat) :
    Except Exc (List Value) :=
  match g.generator_map.lookup data_type with
  | none => Except.error (Exc.valueError ("Unknown data type: " ++ data_type))
  | some generator => generator.callTimes 0 count

/-- `FakeDataGenerator.get_available_types`, verbatim (the method uses nothing
of `self`). -/
def FakeDataGenerator.get_available_types : List String :=
  ["name", "first_name", "last_name", "email", "phone", "ssn",
   "username", "password", "address", "street_address", "city",
   "state", "zipcode", "country", "latitude", "longitude",
   "company", "job", "company_email", "url", "domain_name",
   "ipv4", "ipv6", "mac_address", "user_agent", "text",
   "sentence", "paragraph", "word", "date", "time", "datetime",
   "year", "random_int", "random_digit", "credit_card_number",
   "credit_card_provider", "credit_card_expire", "currency_code",
   "currency_name", "file_name", "file_extension", "mime_type",
   "color_name", "hex_color", "rgb_color", "uuid4", "profile", "user"]

/-- Response body: JSON (sent with Content-Type `application/json` by
`send_json_response`) or HTML (`send_html_response`). -/
inductive Body where
  | json (v : Value)
  | html (page : String)

/-- status code plus body, the observable outcome of a handler. -/
structure Response where
  status : Nat
  body : Body

/-- `send_json_response`. -/
def send_json_response (status_code : Nat) (data : Value) : Response :=
  Response.mk status_code (Body.json data)

/-- `send_html_response`. -/
def send_html_response (status_code : Nat) (html : String) : Response :=
  Response.mk status_code (Body.html html)

/-- `send_error_response`: JSON body `{success: False, error: message}`. -/
def send_error_response (status_code : Nat) (message : String) : Response :=
  send_json_response status_code
    (Value.record [("success", Value.bool false), ("error", Value.str message)])

/-- Digit-string value, as accumulated by `int()`. -/
def digitsVal (ds : List Char) : Nat :=
  ds.foldl (fun acc c => 10 * acc + (c.toNat - Char.toNat '0')) 0

/-- Embedding of Python's `int(s)` on strings: an optional sign followed by at
least one decimal digit yields the integer, anything else raises
`ValueError("invalid literal for int() with base 10: ...")`.  (Python also
tolerates surrounding whitespace and interior underscores and quotes the
offending literal in the message; those details are elided — no claim
exercises them.) -/
def pyInt (s : String) : Except Exc Int :=
  let fail : Except Exc Int :=
    Except.error (Exc.valueError ("invalid literal for int() with base 10: " ++ s))
  match s.toList with
  | '-' :: ds =>
    if !ds.isEmpty && ds.all Char.isDigit then Except.ok (-(digitsVal ds : Int)) else fail
  | '+' :: ds =>
    if !ds.isEmpty && ds.all Char.isDigit then Except.ok (digitsVal ds : Int) else fail
  | ds =>
    if !ds.isEmpty && ds.all Char.isDigit then Except.ok (digitsVal ds : Int) else fail

/-- `params.get(name, [default])[0]` over the result of `parse_qs`, which (with
its default `keep_blank_values=False`) groups the query pairs by key after
dropping every pair whose value is empty; the query string itself is modelled
as the decoded list of `(key, value)` pairs. -/
def getParam (params : List (String × String)) (nm dflt : String) : String :=
  match (params.filter (fun p => p.1 == nm && !(p.2 == ""))).head? with
  | some p => p.2
  | none => dflt

/-- The expression `data if count > 1 else data[0]`: Python list indexing
raises `IndexError` when out of bounds. -/
def assemble_data (count : Int) (data : List Value) : Except Exc Value :=
  if count > 1 then Except.ok (Value.list data)
  else
    match data.head? with
    | some v => Except.ok v
    | none => Except.error (Exc.indexError "list index out of range")

/-- The body of the `try:` block of `handle_generate`, with exceptions made
explicit: read the three parameters (in source order), parse `count`, check
the range, build a fresh locale-bound generator (`fakerOf` models the external
`Faker(locale)` constructor), generate, and assemble the success envelope. -/
def handle_generate_body (fakerOf : String → Faker) (query : List (String × String)) :
    Except Exc Response :=
  let data_type := getParam query "type" "name"
  match pyInt (getParam query "count" "1") with
  | Except.error e => Except.error e
  | Except.ok count =>
    let locale := getParam query "locale" "en_US"
    if count < 1 ∨ count > 100 then
      Except.ok (send_error_response 400 "Count must be between 1 and 100")
    else
      match (FakeDataGenerator.mk (fakerOf locale)).generate data_type count.toNat with
      | Except.error e => Except.error e
      | Except.ok data =>
        match assemble_data count data with
        | Except.error e => Except.error e
        | Except.ok dataField =>
          Except.ok (send_json_response 200
            (Value.record [("success", Value.bool true), ("type", Value.str data_type),
              ("count", Value.int count), ("data", dataField)]))

/-- `handle_generate` with its two `except` clauses: `except ValueError as e`
sends 400 with `str(e)`; `except Exception` sends the generic 500. -/
def handle_generate (fakerOf : String → Faker) (query : List (String × String)) : Response :=
  match handle_generate_body fakerOf query with
  | Except.ok resp => resp
  | Except.error (Exc.valueError msg) => send_error_response 400 msg
  | Except.error (Exc.indexError _) => send_error_response 500 "Internal server error"
  | Except.error (Exc.otherError _) => send_error_response 500 "Internal server error"

/-- `handle_types`: the catalog listing served from the class-level generator
instance (the listing itself is locale-independent). -/
def handle_types : Response :=
  send_json_response 200
    (Value.record [("success", Value.bool true),
      ("count", Value.int FakeDataGenerator.get_available_types.length),
      ("types", Value.list (FakeDataGenerator.get_available_types.map Value.str))])

/-- `handle_health`. -/
def handle_health : Response :=
  send_json_response 200
    (Value.record [("success", Value.bool true), ("status", Value.str "healthy"),
      ("service", Value.str "fake-data-api")])

/-- The static documentation page served by `handle_root` (abridged: it is a
fixed ~100-line HTML literal whose text plays no role in any property; only
the fact that it is sent through `send_html_response` matters). -/
def apiDocumentationHtml : String :=
  "<!DOCTYPE html><html><head><title>Fake Data Generator API</title></head>" ++
  "<body><h1>Fake Data Generator API</h1>" ++
  "<p>A simple API for generating fake data for testing and development.</p>" ++
  "</body></html>"

/-- `handle_root`. -/
def handle_root : Response :=
  send_html_response 200 apiDocumentationHtml

/-- `do_GET` routing on the parsed path. -/
def do_GET (fakerOf : String → Faker) (path : String) (query : List (String × String)) :
    Response :=
  if path = "/api/generate" then handle_generate fakerOf query
  else if path = "/api/types" then handle_types
  else if path = "/api/health" then handle_health
  else if path = "/" ∨ path = "/api" ∨ path = "/api/" then handle_root
  else send_error_response 404 ("Endpoint not found: " ++ path)

/-- The `success` field of a JSON-object response body, if any. -/
def successField (r : Response) : Option Value :=
  match r.body with
  | Body.json (Value.record fields) => fields.lookup "success"
  | _ => none

/-- All values supplied for a query parameter, in query order. -/
def occurrencesOf (q : List (String × String)) (nm : String) : List String :=
  (q.filter (fun p => p.1 == nm)).map Prod.snd

theorem okBind {α β : Type} (a : α) (f : α → Except Exc β) :
    (Except.ok a >>= f) = f a := rfl

theorem bindInv {α β : Type} {e : Except Exc α} {f : α → Except Exc β} {v : β}
    (h : (e >>= f) = Except.ok v) : ∃ a, e = Except.ok a ∧ f a = Except.ok v := by
  cases e with
  | error err => exact Except.noConfusion h
  | ok a => exact ⟨a, rfl, h⟩

theorem pureInv {α : Type} {a v : α} (h : (pure a : Except Exc α) = Except.ok v) : a = v :=
  Except.ok.inj h

theorem lookup_some_of_mem_keys {β : Type} :
    ∀ (l : List (String × β)) (t : String), t ∈ l.map Prod.fst → ∃ p, l.lookup t = some p := by
  intro l
  induction l with
  | nil => intro t ht; exact absurd ht (by simp)
  | cons kv rest ih =>
    intro t ht
    obtain ⟨k, b⟩ := kv
    cases hb : (t == k) with
    | true => exact ⟨b, by simp [List.lookup, hb]⟩
    | false =>
      have hne : t ≠ k := by
        intro he
        subst he
        simp at hb
      have ht' : t ∈ rest.map Prod.fst := by
        rw [List.map_cons] at ht
        rcases List.mem_cons.mp ht with h | h
        · exact absurd h hne
        · exact h
      obtain ⟨p, hp⟩ := ih t ht'
      exact ⟨p, by simp [List.lookup, hb, hp]⟩

theorem mem_of_lookup_some {β : Type} :
    ∀ (l : List (String × β)) (t : String) (p : β), l.lookup t = some p → (t, p) ∈ l := by
  intro l
  induction l with
  | nil => intro t p h; exact Option.noConfusion h
  | cons kv rest ih =>
    intro t p h
    obtain ⟨k, b⟩ := kv
    cases hb : (t == k) with
    | true =>
      have hk : t = k := by simpa using hb
      simp [List.lookup, hb] at h
      subst hk
      subst h
      exact List.mem_cons_self _ _
    | false =>
      simp [List.lookup, hb] at h
      exact List.mem_cons_of_mem _ (ih t p h)

theorem lookup_none_of_not_mem_keys {β : Type} :
    ∀ (l : List (String × β)) (t : String), t ∉ l.map Prod.fst → l.lookup t = none := by
  intro l
  induction l with
  | nil => intro t _; rfl
  | cons kv rest ih =>
    intro t ht
    obtain ⟨k, b⟩ := kv
    have hne : t ≠ k := fun he => ht (by simp [he])
    have hb : (t == k) = false := by
      cases hb : (t == k) with
      | true => exact absurd (by simpa using hb) hne
      | false => rfl
    have ht' : t ∉ rest.map Prod.fst := fun h => ht (by simp [h])
    simp [List.lookup, hb, ih t ht']

/-- The keys of the `generator_map` dict are, in order, exactly the list
returned by `get_available_types`. -/
theorem generator_map_keys (g : FakeDataGenerator) :
    g.generator_map.map Prod.fst = FakeDataGenerator.get_available_types := rfl

theorem generate_profile_total (g : FakeDataGenerator) (h : g.fake.Total) (i : Nat) :
    ∃ v, g.generate_profile i = Except.ok v := by
  obtain ⟨u, hu⟩ := h.user_name i
  obtain ⟨nm, hnm⟩ := h.name i
  obtain ⟨em, hem⟩ := h.email i
  obtain ⟨ph, hph⟩ := h.phone_number i
  obtain ⟨ad, had⟩ := h.address i
  obtain ⟨jb, hjb⟩ := h.job i
  obtain ⟨co, hco⟩ := h.company i
  obtain ⟨bd, hbd⟩ := h.date_of_birth i
  obtain ⟨ws, hws⟩ := h.url i
  refine ⟨Value.record [("username", u), ("name", nm), ("email", em), ("phone", ph),
    ("address", ad), ("job", jb), ("company", co), ("birthdate", Value.str bd),
    ("website", ws)], ?_⟩
  simp only [FakeDataGenerator.generate_profile, hu, hnm, hem, hph, had, hjb, hco, hbd, hws,
    okBind]
  rfl

theorem generate_user_total (g : FakeDataGenerator) (h : g.fake.Total) (i : Nat) :
    ∃ v, g.generate_user i = Except.ok v := by
  obtain ⟨idv, hid⟩ := h.random_int 1 100000 i
  obtain ⟨u, hu⟩ := h.user_name i
  obtain ⟨em, hem⟩ := h.email i
  obtain ⟨nm, hnm⟩ := h.name i
  obtain ⟨ca, hca⟩ := h.date_time i
  refine ⟨Value.record [("id", Value.int idv), ("username", u), ("email", em),
    ("name", nm), ("created_at", Value.str ca)], ?_⟩
  simp only [FakeDataGenerator.generate_user, hid, hu, hem, hnm, hca, okBind]
  rfl

/-- Every producer stored in the `generator_map` succeeds on every call when
the underlying `Faker` methods all succeed. -/
theorem producers_total (g : FakeDataGenerator) (h : g.fake.Total) :
    ∀ pr ∈ g.generator_map, ∀ i, ∃ v, pr.2 i = Except.ok v := by
  intro pr hpr i
  simp only [FakeDataGenerator.generator_map, List.mem_cons, List.not_mem_nil, or_false] at hpr
  rcases hpr with rfl | rfl | rfl | rfl | rfl | rfl | rfl | rfl | rfl | rfl | rfl | rfl | rfl |
    rfl | rfl | rfl | rfl | rfl | rfl | rfl | rfl | rfl | rfl | rfl | rfl | rfl | rfl | rfl |
    rfl | rfl | rfl | rfl | rfl | rfl | rfl | rfl | rfl | rfl | rfl | rfl | rfl | rfl | rfl |
    rfl | rfl | rfl | rfl | rfl | rfl
  all_goals first
  | exact h.name i
  | exact h.first_name i
  | exact h.last_name i
  | exact h.email i
  | exact h.phone_number i
  | exact h.ssn i
  | exact h.user_name i
  | exact h.password i
  | exact h.address i
  | exact h.street_address i
  | exact h.city i
  | exact h.state i
  | exact h.zipcode i
  | exact h.country i
  | exact h.latitude i
  | exact h.longitude i
  | exact h.company i
  | exact h.job i
  | exact h.company_email i
  | exact h.url i
  | exact h.domain_name i
  | exact h.ipv4 i
  | exact h.ipv6 i
  | exact h.mac_address i
  | exact h.user_agent i
  | exact h.text i
  | exact h.sentence i
  | exact h.paragraph i
  | exact h.word i
  | exact h.date i
  | exact h.time i
  | exact h.year i
  | exact h.random_digit i
  | exact h.credit_card_number i
  | exact h.credit_card_provider i
  | exact h.credit_card_expire i
  | exact h.currency_code i
  | exact h.currency_name i
  | exact h.file_name i
  | exact h.file_extension i
  | exact h.mime_type i
  | exact h.color_name i
  | exact h.hex_color i
  | exact h.rgb_color i
  | exact generate_profile_total g h i
  | exact generate_user_total g h i
  | (obtain ⟨s, hs2⟩ := h.date_time i
     exact ⟨Value.str s,
       by show (g.fake.date_time i).map Value.str = Except.ok (Value.str s); rw [hs2]; rfl⟩)
  | (obtain ⟨m, hm⟩ := h.random_int 0 1000 i
     exact ⟨Value.int m,
       by show (g.fake.random_int 0 1000 i).map Value.int = Except.ok (Value.int m); rw [hm]; rfl⟩)
  | (obtain ⟨s, hs2⟩ := h.uuid4 i
     exact ⟨Value.str s,
       by show (g.fake.uuid4 i).map Value.str = Except.ok (Value.str s); rw [hs2]; rfl⟩)

theorem generate_ok_length (g : FakeDataGenerator) (t : String) (n : Nat) (ds : List Value)
    (h : g.generate t n = Except.ok ds) : ds.length = n := by
  unfold FakeDataGenerator.generate at h
  cases hl : g.generator_map.lookup t with
  | none => rw [hl] at h; exact Except.noConfusion h
  | some p => rw [hl] at h; exact Producer.callTimes_length p n 0 ds h

theorem generate_ok_of_total (g : FakeDataGenerator) (h : g.fake.Total) (t : String)
    (ht : t ∈ FakeDataGenerator.get_available_types) (n : Nat) :
    ∃ p ds, g.generator_map.lookup t = some p ∧ g.generate t n = Except.ok ds ∧
      ds.length = n ∧ ∀ (j : Nat) (hj : j < ds.length), p j = Except.ok (ds.get ⟨j, hj⟩) := by
  have hkeys : t ∈ g.generator_map.map Prod.fst := by rw [generator_map_keys]; exact ht
  obtain ⟨p, hp⟩ := lookup_some_of_mem_keys _ t hkeys
  have hmem := mem_of_lookup_some _ t p hp
  have htot := producers_total g h (t, p) hmem
  obtain ⟨ds, hds⟩ := Producer.callTimes_ok_of_total p htot n 0
  refine ⟨p, ds, hp, ?_, Producer.callTimes_length p n 0 ds hds, ?_⟩
  · unfold FakeDataGenerator.generate
    rw [hp]
    exact hds
  · intro j hj
    simpa using Producer.callTimes_get p n 0 ds hds j hj

theorem generate_unknown (g : FakeDataGenerator) (t : String)
    (ht : t ∉ FakeDataGenerator.get_available_types) (n : Nat) :
    g.generate t n = Except.error (Exc.valueError ("Unknown data type: " ++ t)) := by
  have hl : g.generator_map.lookup t = none :=
    lookup_none_of_not_mem_keys _ t (by rw [generator_map_keys]; exact ht)
  unfold FakeDataGenerator.generate
  rw [hl]

theorem generate_profile_shape (g : FakeDataGenerator) (i : Nat) (v : Value)
    (h : g.generate_profile i = Except.ok v) :
    ∃ fields, v = Value.record fields ∧ fields.map Prod.fst =
      ["username", "name", "email", "phone", "address", "job", "company",
       "birthdate", "website"] := by
  unfold FakeDataGenerator.generate_profile at h
  obtain ⟨u, hu, h⟩ := bindInv h
  obtain ⟨nm, hnm, h⟩ := bindInv h
  obtain ⟨em, hem, h⟩ := bindInv h
  obtain ⟨ph, hph, h⟩ := bindInv h
  obtain ⟨ad, had, h⟩ := bindInv h
  obtain ⟨jb, hjb, h⟩ := bindInv h
  obtain ⟨co, hco, h⟩ := bindInv h
  obtain ⟨bd, hbd, h⟩ := bindInv h
  obtain ⟨ws, hws, h⟩ := bindInv h
  exact ⟨_, (pureInv h).symm, rfl⟩

theorem generate_user_shape (g : FakeDataGenerator) (i : Nat) (v : Value)
    (h : g.generate_user i = Except.ok v) :
    ∃ fields idv, v = Value.record fields ∧ fields.map Prod.fst =
      ["id", "username", "email", "name", "created_at"] ∧
      fields.lookup "id" = some (Value.int idv) ∧
      g.fake.random_int 1 100000 i = Except.ok idv := by
  unfold FakeDataGenerator.generate_user at h
  obtain ⟨idv, hid, h⟩ := bindInv h
  obtain ⟨u, hu, h⟩ := bindInv h
  obtain ⟨em, hem, h⟩ := bindInv h
  obtain ⟨nm, hnm, h⟩ := bindInv h
  obtain ⟨ca, hca, h⟩ := bindInv h
  exact ⟨_, idv, (pureInv h).symm, rfl, rfl, hid⟩

theorem getParam_nil (nm dflt : String) : getParam [] nm dflt = dflt := rfl

theorem getParam_cons_hit (nm dflt v : String) (rest : List (String × String)) (hv : v ≠ "") :
    getParam ((nm, v) :: rest) nm dflt = v := by
  simp [getParam, List.filter_cons, hv]

theorem getParam_cons_blank (nm dflt : String) (rest : List (String × String)) :
    getParam ((nm, "") :: rest) nm dflt = getParam rest nm dflt := by
  simp [getParam, List.filter_cons]

theorem getParam_cons_miss (k nm dflt v : String) (rest : List (String × String))
    (hk : k ≠ nm) : getParam ((k, v) :: rest) nm dflt = getParam rest nm dflt := by
  simp [getParam, List.filter_cons, hk]

theorem occurrencesOf_cons_hit (nm v : String) (rest : List (String × String)) :
    occurrencesOf ((nm, v) :: rest) nm = v :: occurrencesOf rest nm := by
  simp [occurrencesOf, List.filter_cons]

theorem occurrencesOf_cons_miss (k nm v : String) (rest : List (String × String))
    (hk : k ≠ nm) : occurrencesOf ((k, v) :: rest) nm = occurrencesOf rest nm := by
  simp [occurrencesOf, List.filter_cons, hk]

theorem getParam_of_nonblank :
    ∀ (q : List (String × String)) (nm dflt : String),
      (∀ v ∈ occurrencesOf q nm, v ≠ "") →
      getParam q nm dflt = (occurrencesOf q nm).headD dflt := by
  intro q
  induction q with
  | nil => intro nm dflt _; rfl
  | cons a rest ih =>
    intro nm dflt hall
    obtain ⟨k, v⟩ := a
    by_cases hk : k = nm
    · subst hk
      have hv : v ≠ "" := hall v (by rw [occurrencesOf_cons_hit]; exact List.mem_cons_self _ _)
      rw [occurrencesOf_cons_hit, getParam_cons_hit _ _ _ _ hv]
      rfl
    · rw [occurrencesOf_cons_miss _ _ _ _ hk, getParam_cons_miss _ _ _ _ _ hk]
      refine ih _ _ ?_
      intro v' hv'
      exact hall v' (by rw [occurrencesOf_cons_miss _ _ _ _ hk]; exact hv')

theorem getParam_of_all_blank :
    ∀ (q : List (String × String)) (nm dflt : String),
      (∀ v ∈ occurrencesOf q nm, v = "") → getParam q nm dflt = dflt := by
  intro q
  induction q with
  | nil => intro nm dflt _; rfl
  | cons a rest ih =>
    intro nm dflt hall
    obtain ⟨k, v⟩ := a
    by_cases hk : k = nm
    · subst hk
      have hv : v = "" := hall v (by rw [occurrencesOf_cons_hit]; exact List.mem_cons_self _ _)
      subst hv
      rw [getParam_cons_blank]
      refine ih _ _ ?_
      intro v' hv'
      exact hall v' (by rw [occurrencesOf_cons_hit]; exact List.mem_cons_of_mem _ hv')
    · rw [getParam_cons_miss _ _ _ _ _ hk]
      refine ih _ _ ?_
      intro v' hv'
      exact hall v' (by rw [occurrencesOf_cons_miss _ _ _ _ hk]; exact hv')

theorem assemble_data_ok (c : Int) (ds : List Value) (h1 : 1 ≤ c)
    (hlen : ds.length = c.toNat) :
    ∃ df, assemble_data c ds = Except.ok df ∧ (1 < c → df = Value.list ds) ∧
      (c = 1 → ds = [df]) := by
  unfold assemble_data
  by_cases hc : c > 1
  · rw [if_pos hc]
    exact ⟨Value.list ds, rfl, fun _ => rfl, fun hce => absurd hce (by omega)⟩
  · have hc1 : c = 1 := by omega
    subst hc1
    rw [if_neg hc]
    match ds, hlen with
    | [v], _ => exact ⟨v, rfl, fun hlt => absurd hlt (by omega), fun _ => rfl⟩

theorem pyInt_ok_ne_blank {s : String} {c : Int} (h : pyInt s = Except.ok c) : s ≠ "" := by
  intro he
  subst he
  exact Except.noConfusion h

/-- Every successful result of the try-block is either the fixed 400
range-error envelope or a 200 success envelope whose first field is
`success: True`. -/
theorem body_ok_shape (fakerOf : String → Faker) (query : List (String × String))
    (r : Response) (h : handle_generate_body fakerOf query = Except.ok r) :
    r = send_error_response 400 "Count must be between 1 and 100" ∨
      ∃ dt c df, r = send_json_response 200
        (Value.record [("success", Value.bool true), ("type", Value.str dt),
          ("count", Value.int c), ("data", df)]) := by
  simp only [handle_generate_body] at h
  split at h
  · exact Except.noConfusion h
  · split at h
    · exact Or.inl (Except.ok.inj h).symm
    · split at h
      · exact Except.noConfusion h
      · split at h
        · exact Except.noConfusion h
        · exact Or.inr ⟨_, _, _, (Except.ok.inj h).symm⟩

/-- A producer that always succeeds with a fixed string. -/
def okProducer : Producer := fun _ => Except.ok (Value.str "x")

/-- A concrete fully-succeeding `Faker` oracle, used for witnesses. -/
def okFake : Faker where
  name := okProducer
  first_name := okProducer
  last_name := okProducer
  email := okProducer
  phone_number := okProducer
  ssn := okProducer
  user_name := okProducer
  password := okProducer
  address := okProducer
  street_address := okProducer
  city := okProducer
  state := okProducer
  zipcode := okProducer
  country := okProducer
  latitude := okProducer
  longitude := okProducer
  company := okProducer
  job := okProducer
  company_email := okProducer
  url := okProducer
  domain_name := okProducer
  ipv4 := okProducer
  ipv6 := okProducer
  mac_address := okProducer
  user_agent := okProducer
  text := okProducer
  sentence := okProducer
  paragraph := okProducer
  word := okProducer
  date := okProducer
  time := okProducer
  date_time := fun _ => Except.ok "1970-01-01T00:00:00"
  year := okProducer
  random_int := fun lo _ _ => Except.ok lo
  random_digit := okProducer
  credit_card_number := okProducer
  credit_card_provider := okProducer
  credit_card_expire := okProducer
  currency_code := okProducer
  currency_name := okProducer
  file_name := okProducer
  file_extension := okProducer
  mime_type := okProducer
  color_name := okProducer
  hex_color := okProducer
  rgb_color := okProducer
  uuid4 := fun _ => Except.ok "u"
  date_of_birth := fun _ => Except.ok "1970-01-01"

theorem okFake_total : okFake.Total := by
  constructor <;> intros <;> exact ⟨_, rfl⟩

/-- A locale factory returning the concrete succeeding oracle for any locale. -/
def constFakerOf : String → Faker := fun _ => okFake

/-- A `Faker` whose `name` method raises `ValueError("boom")`: used to exhibit
how a producer-raised `ValueError` is routed by the handler. -/
def badValueFake : Faker :=
  { okFake with name := fun _ => Except.error (Exc.valueError "boom") }

/-- Locale factory returning `badValueFake`. -/
def badValueFakerOf : String → Faker := fun _ => badValueFake

theorem mem_types_ne_blank {t : String} (ht : t ∈ FakeDataGenerator.get_available_types) :
    t ≠ "" := by
  intro he
  subst he
  revert ht
  decide

theorem two_param_query (t s : String) (htne : t ≠ "") (hsne : s ≠ "") :
    getParam [("type", t), ("count", s)] "type" "name" = t ∧
    getParam [("type", t), ("count", s)] "count" "1" = s ∧
    getParam [("type", t), ("count", s)] "locale" "en_US" = "en_US" := by
  refine ⟨getParam_cons_hit _ _ _ _ htne, ?_, ?_⟩
  · rw [getParam_cons_miss _ _ _ _ _ (by decide), getParam_cons_hit _ _ _ _ hsne]
  · rw [getParam_cons_miss _ _ _ _ _ (by decide), getParam_cons_miss _ _ _ _ _ (by decide)]
    rfl

/-- Workhorse: a request whose parameters resolve to a catalog type, a valid
count and a locale with succeeding producers yields the full 200 envelope,
with the payload produced by the looked-up producer in call order. -/
theorem handle_generate_success (fakerOf : String → Faker) (q : List (String × String))
    (t loc : String) (c : Int)
    (hgt : getParam q "type" "name" = t)
    (hgc : pyInt (getParam q "count" "1") = Except.ok c)
    (hgl : getParam q "locale" "en_US" = loc)
    (ht : t ∈ FakeDataGenerator.get_available_types)
    (htot : (fakerOf loc).Total) (h1 : 1 ≤ c) (h2 : c ≤ 100) :
    ∃ p ds df,
      (FakeDataGenerator.mk (fakerOf loc)).generator_map.lookup t = some p ∧
      (FakeDataGenerator.mk (fakerOf loc)).generate t c.toNat = Except.ok ds ∧
      ds.length = c.toNat ∧
      (∀ (j : Nat) (hj : j < ds.length), p j = Except.ok (ds.get ⟨j, hj⟩)) ∧
      assemble_data c ds = Except.ok df ∧
      (1 < c → df = Value.list ds) ∧ (c = 1 → ds = [df]) ∧
      handle_generate fakerOf q = send_json_response 200
        (Value.record [("success", Value.bool true), ("type", Value.str t),
          ("count", Value.int c), ("data", df)]) := by
  obtain ⟨p, ds, hp, hgen, hlen, hget⟩ :=
    generate_ok_of_total (FakeDataGenerator.mk (fakerOf loc)) htot t ht c.toNat
  obtain ⟨df, hdf, hlist, hbare⟩ := assemble_data_ok c ds h1 hlen
  have hcond : ¬(c < 1 ∨ c > 100) := by omega
  refine ⟨p, ds, df, hp, hgen, hlen, hget, hdf, hlist, hbare, ?_⟩
  simp only [handle_generate, handle_generate_body, hgt, hgl, hgc, if_neg hcond, hgen, hdf]

/-- The `handle_generate` response always carries a boolean `success` field
that is `true` exactly on status 200. -/
theorem handle_generate_success_field (fakerOf : String → Faker)
    (q : List (String × String)) :
    ∃ b, successField (handle_generate fakerOf q) = some (Value.bool b) ∧
      (b = true ↔ (handle_generate fakerOf q).status = 200) := by
  cases hb : handle_generate_body fakerOf q with
  | error e =>
    cases e with
    | valueError m =>
      refine ⟨false, ?_, ?_⟩
      · simp only [handle_generate, hb]
        rfl
      · simp only [handle_generate, hb]
        simp [send_error_response, send_json_response]
    | indexError m =>
      refine ⟨false, ?_, ?_⟩
      · simp only [handle_generate, hb]
        rfl
      · simp only [handle_generate, hb]
        simp [send_error_response, send_json_response]
    | otherError m =>
      refine ⟨false, ?_, ?_⟩
      · simp only [handle_generate, hb]
        rfl
      · simp only [handle_generate, hb]
        simp [send_error_response, send_json_response]
  | ok r =>
    rcases body_ok_shape fakerOf q r hb with h | ⟨dt, c, df, h⟩ <;> subst h
    · refine ⟨false, ?_, ?_⟩
      · simp only [handle_generate, hb]
        rfl
      · simp only [handle_generate, hb]
        simp [send_error_response, send_json_response]
    · refine ⟨true, ?_, ?_⟩
      · simp only [handle_generate, hb]
        rfl
      · simp only [handle_generate, hb]
        simp [send_json_response]

/-- Claim C1: for a request with a catalog type and `count=c` (an integer, so
`int()` parses the supplied string to `c`), the request succeeds (HTTP 200)
iff `1 <= c <= 100`; outside that range the response is HTTP 400 with the
fixed message "Count must be between 1 and 100"; and whenever the count value
the handler reads does not parse as an integer, the response is HTTP 400 with
the parse-failure message. -/
theorem count_bounds (fakerOf : String → Faker) (t s : String) (c : Int)
    (ht : t ∈ FakeDataGenerator.get_available_types)
    (htot : (fakerOf "en_US").Total)
    (hs : pyInt s = Except.ok c) :
    ((handle_generate fakerOf [("type", t), ("count", s)]).status = 200 ↔
      1 ≤ c ∧ c ≤ 100) ∧
    (¬(1 ≤ c ∧ c ≤ 100) →
      handle_generate fakerOf [("type", t), ("count", s)] =
        send_error_response 400 "Count must be between 1 and 100") ∧
    (∀ (q : List (String × String)) (m : String),
      pyInt (getParam q "count" "1") = Except.error (Exc.valueError m) →
      handle_generate fakerOf q = send_error_response 400 m) := by
  have htne := mem_types_ne_blank ht
  have hsne := pyInt_ok_ne_blank hs
  obtain ⟨hgt, hgc0, hgl⟩ := two_param_query t s htne hsne
  have hgc : pyInt (getParam [("type", t), ("count", s)] "count" "1") = Except.ok c := by
    rw [hgc0]
    exact hs
  have hout : c < 1 ∨ c > 100 →
      handle_generate fakerOf [("type", t), ("count", s)] =
        send_error_response 400 "Count must be between 1 and 100" := by
    intro hcond
    simp only [handle_generate, handle_generate_body, hgc, if_pos hcond]
  refine ⟨⟨?_, ?_⟩, ?_, ?_⟩
  · intro hst
    by_contra hneg
    rw [hout (by omega)] at hst
    exact absurd hst (by decide)
  · intro hrange
    obtain ⟨p, ds, df, _, _, _, _, _, _, _, hresp⟩ :=
      handle_generate_success fakerOf [("type", t), ("count", s)] t "en_US" c
        hgt hgc hgl ht htot hrange.1 hrange.2
    rw [hresp]
    rfl
  · intro hneg
    exact hout (by omega)
  · intro q m hq
    simp only [handle_generate, handle_generate_body, hq]

/-- Claim C1 witness: `count=5` with type `name` succeeds, `count=200` yields
the fixed 400 message, `count=abc` yields the parse-failure 400. -/
theorem count_bounds_witness :
    (handle_generate constFakerOf [("type", "name"), ("count", "5")]).status = 200 ∧
    handle_generate constFakerOf [("type", "name"), ("count", "200")] =
      send_error_response 400 "Count must be between 1 and 100" ∧
    handle_generate constFakerOf [("type", "name"), ("count", "abc")] =
      send_error_response 400 "invalid literal for int() with base 10: abc" := by
  refine ⟨?_, ?_, ?_⟩
  · exact (count_bounds constFakerOf "name" "5" 5 (by decide) okFake_total rfl).1.mpr
      (by constructor <;> decide)
  · exact (count_bounds constFakerOf "name" "200" 200 (by decide) okFake_total rfl).2.1
      (by decide)
  · exact (count_bounds constFakerOf "name" "5" 5 (by decide) okFake_total rfl).2.2
      [("type", "name"), ("count", "abc")] "invalid literal for int() with base 10: abc" rfl

/-- Claim C2: for a valid request (catalog type, count `c` in range), the
response is the 200 envelope whose `data` field is the bare generated item
when `c = 1` (`ds = [df]`) and the ordered list of exactly `c` items when
`c > 1`, the `j`-th item being the result of the `j`-th producer call. -/
theorem data_cardinality (fakerOf : String → Faker) (t s : String) (c : Int)
    (ht : t ∈ FakeDataGenerator.get_available_types)
    (htot : (fakerOf "en_US").Total)
    (hs : pyInt s = Except.ok c) (h1 : 1 ≤ c) (h2 : c ≤ 100) :
    ∃ p ds df,
      (FakeDataGenerator.mk (fakerOf "en_US")).generator_map.lookup t = some p ∧
      (FakeDataGenerator.mk (fakerOf "en_US")).generate t c.toNat = Except.ok ds ∧
      ds.length = c.toNat ∧
      (∀ (j : Nat) (hj : j < ds.length), p j = Except.ok (ds.get ⟨j, hj⟩)) ∧
      (1 < c → df = Value.list ds) ∧
      (c = 1 → ds = [df]) ∧
      handle_generate fakerOf [("type", t), ("count", s)] = send_json_response 200
        (Value.record [("success", Value.bool true), ("type", Value.str t),
          ("count", Value.int c), ("data", df)]) := by
  have htne := mem_types_ne_blank ht
  have hsne := pyInt_ok_ne_blank hs
  obtain ⟨hgt, hgc0, hgl⟩ := two_param_query t s htne hsne
  have hgc : pyInt (getParam [("type", t), ("count", s)] "count" "1") = Except.ok c := by
    rw [hgc0]
    exact hs
  obtain ⟨p, ds, df, hp, hgen, hlen, hget, _, hlist, hbare, hresp⟩ :=
    handle_generate_success fakerOf [("type", t), ("count", s)] t "en_US" c
      hgt hgc hgl ht htot h1 h2
  exact ⟨p, ds, df, hp, hgen, hlen, hget, hlist, hbare, hresp⟩

/-- Claim C2 witness: `count=2` for type `name` returns a 2-element list. -/
theorem data_cardinality_witness :
    ∃ p ds df,
      (FakeDataGenerator.mk (constFakerOf "en_US")).generator_map.lookup "name" = some p ∧
      (FakeDataGenerator.mk (constFakerOf "en_US")).generate "name" (2 : Int).toNat =
        Except.ok ds ∧
      ds.length = (2 : Int).toNat ∧
      (∀ (j : Nat) (hj : j < ds.length), p j = Except.ok (ds.get ⟨j, hj⟩)) ∧
      (1 < (2 : Int) → df = Value.list ds) ∧
      ((2 : Int) = 1 → ds = [df]) ∧
      handle_generate constFakerOf [("type", "name"), ("count", "2")] = send_json_response 200
        (Value.record [("success", Value.bool true), ("type", Value.str "name"),
          ("count", Value.int 2), ("data", df)]) :=
  data_cardinality constFakerOf "name" "2" 2 (by decide) okFake_total rfl
    (by decide) (by decide)

/-- Claim C9: when the range check passed (`1 <= c`) and generation succeeded
(so the type lookup succeeded), `generate` returns exactly `c.toNat` items, the
list is non-empty, and the `data[0]` expression (`assemble_data`) cannot raise
`IndexError`. -/
theorem index_in_bounds (fake : Faker) (t : String) (c : Int) (ds : List Value)
    (hc : 1 ≤ c) (h : (FakeDataGenerator.mk fake).generate t c.toNat = Except.ok ds) :
    ds.length = c.toNat ∧ ds ≠ [] ∧ ∃ v, assemble_data c ds = Except.ok v := by
  have hlen := generate_ok_length (FakeDataGenerator.mk fake) t c.toNat ds h
  obtain ⟨df, hdf, _, _⟩ := assemble_data_ok c ds hc hlen
  refine ⟨hlen, ?_, df, hdf⟩
  intro he
  subst he
  simp only [List.length_nil] at hlen
  omega

/-- Claim C9 witness: at type `name`, count 1 with the concrete oracle. -/
theorem index_in_bounds_witness :
    ([Value.str "x"] : List Value).length = (1 : Int).toNat ∧
    ([Value.str "x"] : List Value) ≠ [] ∧
    ∃ v, assemble_data 1 [Value.str "x"] = Except.ok v :=
  index_in_bounds okFake "name" 1 [Value.str "x"] (by decide) rfl

/-- Claim C3: the set of names listed by `get_available_types` equals the set
of keys of the `generator_map`; every listed name has a producer (lookup never
fails, so no unknown-type error) and generates successfully when the backing
methods succeed; every name outside the list is rejected with the
unknown-type `ValueError`. -/
theorem catalog_completeness (fake : Faker) :
    (∀ t, t ∈ (FakeDataGenerator.mk fake).generator_map.map Prod.fst ↔
      t ∈ FakeDataGenerator.get_available_types) ∧
    (∀ t, t ∈ FakeDataGenerator.get_available_types →
      ∃ p, (FakeDataGenerator.mk fake).generator_map.lookup t = some p) ∧
    (∀ t, t ∈ FakeDataGenerator.get_available_types → fake.Total →
      ∀ n, ∃ ds, (FakeDataGenerator.mk fake).generate t n = Except.ok ds) ∧
    (∀ t, t ∉ FakeDataGenerator.get_available_types → ∀ n,
      (FakeDataGenerator.mk fake).generate t n =
        Except.error (Exc.valueError ("Unknown data type: " ++ t))) := by
  refine ⟨?_, ?_, ?_, ?_⟩
  · intro t
    rw [generator_map_keys]
  · intro t ht
    exact lookup_some_of_mem_keys _ t (by rw [generator_map_keys]; exact ht)
  · intro t ht htot n
    obtain ⟨p, ds, _, hgen, _, _⟩ :=
      generate_ok_of_total (FakeDataGenerator.mk fake) htot t ht n
    exact ⟨ds, hgen⟩
  · intro t ht n
    exact generate_unknown (FakeDataGenerator.mk fake) t ht n

/-- Claim C3 witness: `email` is listed and generates; `sandwich` is rejected. -/
theorem catalog_completeness_witness :
    (∃ ds, (FakeDataGenerator.mk okFake).generate "email" 3 = Except.ok ds) ∧
    (FakeDataGenerator.mk okFake).generate "sandwich" 3 =
      Except.error (Exc.valueError ("Unknown data type: " ++ "sandwich")) :=
  ⟨(catalog_completeness okFake).2.2.1 "email" (by decide) okFake_total 3,
   (catalog_completeness okFake).2.2.2 "sandwich" (by decide) 3⟩

/-- Claim C4 counterexample: the fixed catalog has 49 entries, not 48. -/
theorem catalog_size_cex :
    (FakeDataGenerator.mk okFake).generator_map.length = 49 ∧
    FakeDataGenerator.get_available_types.length = 49 ∧ ¬ (49 = 48) :=
  ⟨rfl, rfl, by decide⟩

/-- Claim C4 amended: the catalog of generator keys is fixed (its key list is
the same for every oracle) and contains exactly 49 entries, of which exactly
2 — `profile` and `user`, whose producers are the composite
`generate_profile`/`generate_user` — are composite. -/
theorem catalog_size_amended (fake : Faker) :
    ((FakeDataGenerator.mk fake).generator_map.map Prod.fst).length = 49 ∧
    (((FakeDataGenerator.mk fake).generator_map.map Prod.fst).filter
      (fun k => k == "profile" || k == "user")).length = 2 ∧
    (FakeDataGenerator.mk fake).generator_map.lookup "profile" =
      some (FakeDataGenerator.mk fake).generate_profile ∧
    (FakeDataGenerator.mk fake).generator_map.lookup "user" =
      some (FakeDataGenerator.mk fake).generate_user :=
  ⟨rfl, rfl, rfl, rfl⟩

/-- Claim C5 counterexample: the empty string is a type string outside the
catalog, yet requesting `type=` (empty value) succeeds with HTTP 200, because
`parse_qs` drops blank values and the handler falls back to the default type
`name`. -/
theorem unknown_type_cex :
    "" ∉ FakeDataGenerator.get_available_types ∧
    (handle_generate constFakerOf [("type", ""), ("count", "1")]).status = 200 ∧
    handle_generate constFakerOf [("type", ""), ("count", "1")] = send_json_response 200
      (Value.record [("success", Value.bool true), ("type", Value.str "name"),
        ("count", Value.int 1), ("data", Value.str "x")]) :=
  ⟨by decide, rfl, rfl⟩

/-- Claim C5 amended: for every NONEMPTY type string `t` outside the catalog,
a request with `type=t` and a valid count yields HTTP 400 with `success:false`
and the error message `"Unknown data type: " ++ t`, which contains the literal
type string. -/
theorem unknown_type_amended (fakerOf : String → Faker) (t s : String) (c : Int)
    (htne : t ≠ "") (ht : t ∉ FakeDataGenerator.get_available_types)
    (hs : pyInt s = Except.ok c) (h1 : 1 ≤ c) (h2 : c ≤ 100) :
    handle_generate fakerOf [("type", t), ("count", s)] =
      send_error_response 400 ("Unknown data type: " ++ t) := by
  have hsne := pyInt_ok_ne_blank hs
  obtain ⟨hgt, hgc0, hgl⟩ := two_param_query t s htne hsne
  have hgc : pyInt (getParam [("type", t), ("count", s)] "count" "1") = Except.ok c := by
    rw [hgc0]
    exact hs
  have hgen := generate_unknown (FakeDataGenerator.mk (fakerOf "en_US")) t ht c.toNat
  have hcond : ¬(c < 1 ∨ c > 100) := by omega
  simp only [handle_generate, handle_generate_body, hgt, hgl, hgc, if_neg hcond, hgen]

/-- Claim C5 amended witness at `type=not_a_real_type`. -/
theorem unknown_type_amended_witness :
    handle_generate constFakerOf [("type", "not_a_real_type"), ("count", "1")] =
      send_error_response 400 ("Unknown data type: " ++ "not_a_real_type") :=
  unknown_type_amended constFakerOf "not_a_real_type" "1" 1 (by decide) (by decide) rfl
    (by decide) (by decide)

/-- Claim C6: every value generated for `type=profile` is a record with
exactly the keys username, name, email, phone, address, job, company,
birthdate, website (in dict order); every value generated for `type=user` is
a record with exactly the keys id, username, email, name, created_at, where
`id` comes from `random_int(min=1, max=100000)` and so (by the external
provider's range contract, taken as hypothesis `hr`) lies in `[1, 100000]`. -/
theorem composite_shape (fake : Faker) (n : Nat)
    (hr : ∀ lo hi i v, lo ≤ hi → fake.random_int lo hi i = Except.ok v →
      lo ≤ v ∧ v ≤ hi) :
    (∀ ds v, (FakeDataGenerator.mk fake).generate "profile" n = Except.ok ds → v ∈ ds →
      ∃ fields, v = Value.record fields ∧ fields.map Prod.fst =
        ["username", "name", "email", "phone", "address", "job", "company",
         "birthdate", "website"]) ∧
    (∀ ds v, (FakeDataGenerator.mk fake).generate "user" n = Except.ok ds → v ∈ ds →
      ∃ fields idv, v = Value.record fields ∧ fields.map Prod.fst =
        ["id", "username", "email", "name", "created_at"] ∧
        fields.lookup "id" = some (Value.int idv) ∧ 1 ≤ idv ∧ idv ≤ 100000) := by
  constructor
  · intro ds v hgen hv
    have hct : Producer.callTimes (FakeDataGenerator.mk fake).generate_profile 0 n =
        Except.ok ds := by
      have hpl : (FakeDataGenerator.mk fake).generator_map.lookup "profile" =
        some (FakeDataGenerator.mk fake).generate_profile := rfl
      simp only [FakeDataGenerator.generate, hpl] at hgen
      exact hgen
    obtain ⟨j, hj⟩ := Producer.callTimes_mem _ n 0 ds hct v hv
    exact generate_profile_shape (FakeDataGenerator.mk fake) j v hj
  · intro ds v hgen hv
    have hct : Producer.callTimes (FakeDataGenerator.mk fake).generate_user 0 n =
        Except.ok ds := by
      have hpl : (FakeDataGenerator.mk fake).generator_map.lookup "user" =
        some (FakeDataGenerator.mk fake).generate_user := rfl
      simp only [FakeDataGenerator.generate, hpl] at hgen
      exact hgen
    obtain ⟨j, hj⟩ := Producer.callTimes_mem _ n 0 ds hct v hv
    obtain ⟨fields, idv, hvr, hkeys, hid, hran⟩ :=
      generate_user_shape (FakeDataGenerator.mk fake) j v hj
    have hb := hr 1 100000 j idv (by omega) hran
    exact ⟨fields, idv, hvr, hkeys, hid, hb.1, hb.2⟩

/-- Claim C6 witness: the concrete oracle's `user` value has exactly the five
keys with `id = 1` in range. -/
theorem composite_shape_witness :
    ∃ fields idv,
      Value.record [("id", Value.int 1), ("username", Value.str "x"),
        ("email", Value.str "x"), ("name", Value.str "x"),
        ("created_at", Value.str "1970-01-01T00:00:00")] = Value.record fields ∧
      fields.map Prod.fst = ["id", "username", "email", "name", "created_at"] ∧
      fields.lookup "id" = some (Value.int idv) ∧ 1 ≤ idv ∧ idv ≤ 100000 := by
  have hr : ∀ lo hi i v, lo ≤ hi → okFake.random_int lo hi i = Except.ok v →
      lo ≤ v ∧ v ≤ hi := by
    intro lo hi i v hle hv
    have hlv : lo = v := Except.ok.inj hv
    subst hlv
    exact ⟨le_refl lo, hle⟩
  exact (composite_shape okFake 1 hr).2
    [Value.record [("id", Value.int 1), ("username", Value.str "x"),
      ("email", Value.str "x"), ("name", Value.str "x"),
      ("created_at", Value.str "1970-01-01T00:00:00")]]
    (Value.record [("id", Value.int 1), ("username", Value.str "x"),
      ("email", Value.str "x"), ("name", Value.str "x"),
      ("created_at", Value.str "1970-01-01T00:00:00")])
    rfl (List.mem_singleton.mpr rfl)

/-- Claim C7 counterexample: a producer that raises `ValueError("boom")` is
caught by the handler's `except ValueError` clause and reported as HTTP 400
with the exception's own message — not as the generic HTTP 500 the claim
states. -/
theorem producer_failure_cex :
    badValueFake.name 0 = Except.error (Exc.valueError "boom") ∧
    handle_generate badValueFakerOf [("type", "name"), ("count", "1")] =
      send_error_response 400 "boom" ∧
    (handle_generate badValueFakerOf [("type", "name"), ("count", "1")]).status ≠ 500 :=
  ⟨rfl, rfl, by decide⟩

/-- Claim C7 amended: with a catalog type and valid count, a failure raised
inside a producer that is NOT a `ValueError` (generic exceptions, including
`IndexError`) is caught and reported as HTTP 500 with the generic body
"Internal server error"; a `ValueError` raised inside a producer is instead
caught by the `except ValueError` clause and reported as HTTP 400 with that
exception's message.  In every case the response is all-or-nothing: on any
failure the body is the two-field error envelope with no `data`, and on
success the payload holds exactly `count` items. -/
theorem producer_failure_amended (fakerOf : String → Faker) (t s : String) (c : Int)
    (ht : t ∈ FakeDataGenerator.get_available_types)
    (hs : pyInt s = Except.ok c) (h1 : 1 ≤ c) (h2 : c ≤ 100) :
    (∀ m, (FakeDataGenerator.mk (fakerOf "en_US")).generate t c.toNat =
        Except.error (Exc.otherError m) →
      handle_generate fakerOf [("type", t), ("count", s)] =
        send_error_response 500 "Internal server error") ∧
    (∀ m, (FakeDataGenerator.mk (fakerOf "en_US")).generate t c.toNat =
        Except.error (Exc.indexError m) →
      handle_generate fakerOf [("type", t), ("count", s)] =
        send_error_response 500 "Internal server error") ∧
    (∀ m, (FakeDataGenerator.mk (fakerOf "en_US")).generate t c.toNat =
        Except.error (Exc.valueError m) →
      handle_generate fakerOf [("type", t), ("count", s)] =
        send_error_response 400 m) ∧
    (∀ ds, (FakeDataGenerator.mk (fakerOf "en_US")).generate t c.toNat = Except.ok ds →
      ds.length = c.toNat ∧
      ∃ df, handle_generate fakerOf [("type", t), ("count", s)] = send_json_response 200
        (Value.record [("success", Value.bool true), ("type", Value.str t),
          ("count", Value.int c), ("data", df)])) := by
  have htne := mem_types_ne_blank ht
  have hsne := pyInt_ok_ne_blank hs
  obtain ⟨hgt, hgc0, hgl⟩ := two_param_query t s htne hsne
  have hgc : pyInt (getParam [("type", t), ("count", s)] "count" "1") = Except.ok c := by
    rw [hgc0]
    exact hs
  have hcond : ¬(c < 1 ∨ c > 100) := by omega
  refine ⟨?_, ?_, ?_, ?_⟩
  · intro m hm
    simp only [handle_generate, handle_generate_body, hgt, hgl, hgc, if_neg hcond, hm]
  · intro m hm
    simp only [handle_generate, handle_generate_body, hgt, hgl, hgc, if_neg hcond, hm]
  · intro m hm
    simp only [handle_generate, handle_generate_body, hgt, hgl, hgc, if_neg hcond, hm]
  · intro ds hds
    have hlen := generate_ok_length (FakeDataGenerator.mk (fakerOf "en_US")) t c.toNat ds hds
    obtain ⟨df, hdf, _, _⟩ := assemble_data_ok c ds h1 hlen
    refine ⟨hlen, df, ?_⟩
    simp only [handle_generate, handle_generate_body, hgt, hgl, hgc, if_neg hcond, hds, hdf]

/-- Claim C7 amended witness: the `ValueError`-raising producer yields 400
with its own message. -/
theorem producer_failure_amended_witness :
    handle_generate badValueFakerOf [("type", "name"), ("count", "1")] =
      send_error_response 400 "boom" :=
  (producer_failure_amended badValueFakerOf "name" "1" 1 (by decide) rfl
    (by decide) (by decide)).2.2.1 "boom" rfl

/-- Claim C8 counterexample: the documentation route `/` is served through
`send_html_response`: its body is HTML, not a JSON object, and has no
`success` field. -/
theorem envelope_cex :
    do_GET constFakerOf "/" [] = send_html_response 200 apiDocumentationHtml ∧
    successField (do_GET constFakerOf "/" []) = none :=
  ⟨rfl, rfl⟩

/-- Claim C8 amended: for every GET request whose path is not one of the
documentation routes `/`, `/api`, `/api/`, the response body is a JSON object
with a boolean `success` field, true exactly on status 200 (so false on every
error response); the documentation routes return an HTML page instead. -/
theorem envelope_amended (fakerOf : String → Faker) (path : String)
    (query : List (String × String)) (hpath : path ∉ (["/", "/api", "/api/"] : List String)) :
    ∃ b, successField (do_GET fakerOf path query) = some (Value.bool b) ∧
      (b = true ↔ (do_GET fakerOf path query).status = 200) := by
  have h1 : path ≠ "/" := fun h => hpath (by simp [h])
  have h2 : path ≠ "/api" := fun h => hpath (by simp [h])
  have h3 : path ≠ "/api/" := fun h => hpath (by simp [h])
  by_cases hg : path = "/api/generate"
  · have hres : do_GET fakerOf path query = handle_generate fakerOf query := by
      simp [do_GET, hg]
    rw [hres]
    exact handle_generate_success_field fakerOf query
  · by_cases hty : path = "/api/types"
    · have hres : do_GET fakerOf path query = handle_types := by
        simp [do_GET, hg, hty]
      rw [hres]
      exact ⟨true, rfl, by simp [handle_types, send_json_response]⟩
    · by_cases hh : path = "/api/health"
      · have hres : do_GET fakerOf path query = handle_health := by
          simp [do_GET, hg, hty, hh]
        rw [hres]
        exact ⟨true, rfl, by simp [handle_health, send_json_response]⟩
      · have hroot : ¬(path = "/" ∨ path = "/api" ∨ path = "/api/") := by
          rintro (h | h | h)
          · exact h1 h
          · exact h2 h
          · exact h3 h
        have hres : do_GET fakerOf path query =
            send_error_response 404 ("Endpoint not found: " ++ path) := by
          simp [do_GET, hg, hty, hh, hroot]
        rw [hres]
        exact ⟨false, rfl, by simp [send_error_response, send_json_response]⟩

/-- Claim C8 amended witness at the health route. -/
theorem envelope_amended_witness :
    ∃ b, successField (do_GET constFakerOf "/api/health" []) = some (Value.bool b) ∧
      (b = true ↔ (do_GET constFakerOf "/api/health" []).status = 200) :=
  envelope_amended constFakerOf "/api/health" [] (by decide)

/-- Claim C10: for each of the three `/api/generate` parameters with its
documented default — `type`/"name", `count`/"1", `locale`/"en_US" — the
handler reads the first supplied occurrence when the parameter appears
multiple times (with non-blank values), and falls back to the default when
the parameter is absent or all its supplied values are empty; consequently
the bare request with no parameters generates one value of type `name`
against the `en_US`-built backend. -/
theorem param_defaults (q : List (String × String)) (nm dflt : String)
    (hnd : (nm, dflt) ∈ ([("type", "name"), ("count", "1"), ("locale", "en_US")] :
      List (String × String))) :
    ((∀ v ∈ occurrencesOf q nm, v ≠ "") →
      getParam q nm dflt = (occurrencesOf q nm).headD dflt) ∧
    (occurrencesOf q nm = [] → getParam q nm dflt = dflt) ∧
    ((∀ v ∈ occurrencesOf q nm, v = "") → getParam q nm dflt = dflt) ∧
    (∀ fakerOf : String → Faker, (fakerOf "en_US").Total →
      ∃ v, (fakerOf "en_US").name 0 = Except.ok v ∧
        handle_generate fakerOf [] = send_json_response 200
          (Value.record [("success", Value.bool true), ("type", Value.str "name"),
            ("count", Value.int 1), ("data", v)])) := by
  refine ⟨getParam_of_nonblank q nm dflt, ?_, getParam_of_all_blank q nm dflt, ?_⟩
  · intro hocc
    rw [getParam_of_nonblank q nm dflt ?_, hocc]
    · rfl
    · rw [hocc]
      intro v hv
      exact absurd hv (List.not_mem_nil v)
  · intro fakerOf htot
    obtain ⟨p, ds, df, hp, hgen, hlen, hget, hdf, hlist, hbare, hresp⟩ :=
      handle_generate_success fakerOf [] "name" "en_US" 1 rfl rfl rfl (by decide) htot
        (by decide) (by decide)
    have hpn : (FakeDataGenerator.mk (fakerOf "en_US")).generator_map.lookup "name" =
      some ((fakerOf "en_US").name) := rfl
    rw [hpn] at hp
    have hpe : p = (fakerOf "en_US").name := (Option.some.inj hp).symm
    have hds1 : ds = [df] := hbare rfl
    subst hds1
    have h0 : (0 : Nat) < ([df] : List Value).length := by simp
    have hcall := hget 0 h0
    rw [hpe] at hcall
    exact ⟨df, by simpa using hcall, hresp⟩

/-- Claim C10 witness: first occurrence wins for duplicated `count`; absent
and blank `count` both fall back to "1"; the parameterless request against
the concrete oracle returns the default envelope. -/
theorem param_defaults_witness :
    getParam [("count", "7"), ("count", "9")] "count" "1" = "7" ∧
    getParam [] "count" "1" = "1" ∧
    getParam [("count", "")] "count" "1" = "1" ∧
    ∃ v, (constFakerOf "en_US").name 0 = Except.ok v ∧
      handle_generate constFakerOf [] = send_json_response 200
        (Value.record [("success", Value.bool true), ("type", Value.str "name"),
          ("count", Value.int 1), ("data", v)]) := by
  refine ⟨?_, ?_, ?_, ?_⟩
  · have h := (param_defaults [("count", "7"), ("count", "9")] "count" "1" (by decide)).1
      (by decide)
    rw [h]
    rfl
  · exact (param_defaults [] "count" "1" (by decide)).2.1 rfl
  · exact (param_defaults [("count", "")] "count" "1" (by decide)).2.2.1 (by decide)
  · exact (param_defaults [] "count" "1" (by decide)).2.2.2 constFakerOf okFake_total

end FakerServer
